import Mathlib

/-!
Verification development for the farm-management dashboard module.

The definitions below are shallow embeddings of the Python source files
`models/dashboard_access.py`, `models/dashboard_data.py`,
`models/dashboard_kpi.py` and `models/dashboard_bus_handlers.py`.
Monetary floats are modelled as exact rationals, Python `round(x, 2)` as
rounding of `100 * x` to the nearest integer, fallible operations return
`Option`, and ORM record stores and the message bus are passed explicitly.
-/

/-- Checked division: `none` models a ZeroDivisionError being raised. -/
def divChecked (a b : ℚ) : Option ℚ :=
  if b = 0 then none else some (a / b)

/-- Embeds Python `round(x, 2)`: round `100 * x` to the nearest integer and
divide back.  Python rounds exact halves to even while `round` on `ℚ` rounds
halves up; no value used in any theorem below sits on an exact half. -/
def round2 (q : ℚ) : ℚ := ((round (q * 100) : ℤ) : ℚ) / 100

/-! Embedding of dashboard_access.py -/

/-- The eight tab flags and four capability flags of a
`farm.dashboard.access` record. -/
structure AccessFlags where
  can_access_overview : Bool
  can_access_projects : Bool
  can_access_crops : Bool
  can_access_financials : Bool
  can_access_sales : Bool
  can_access_purchases : Bool
  can_access_inventory : Bool
  can_access_reports : Bool
  can_export_data : Bool
  can_modify_filters : Bool
  can_view_costs : Bool
  can_view_profits : Bool
deriving DecidableEq

/-- Field-level defaults of the flag columns (the `default=` arguments of the
field declarations in `FarmDashboardAccess`). -/
def defaultAccessFlags : AccessFlags :=
  { can_access_overview := true
    can_access_projects := true
    can_access_crops := true
    can_access_financials := false
    can_access_sales := false
    can_access_purchases := false
    can_access_inventory := false
    can_access_reports := true
    can_export_data := false
    can_modify_filters := true
    can_view_costs := false
    can_view_profits := false }

/-- Embeds `FarmDashboardAccess._get_role_permissions`: the fixed per-role
template; an unknown role yields the empty dict, modelled as `none`. -/
def role_permissions (role : String) : Option AccessFlags :=
  if role = "owner" then
    some { can_access_overview := true
           can_access_projects := true
           can_access_crops := true
           can_access_financials := true
           can_access_sales := true
           can_access_purchases := true
           can_access_inventory := true
           can_access_reports := true
           can_export_data := true
           can_modify_filters := true
           can_view_costs := true
           can_view_profits := true }
  else if role = "manager" then
    some { can_access_overview := true
           can_access_projects := true
           can_access_crops := true
           can_access_financials := true
           can_access_sales := true
           can_access_purchases := true
           can_access_inventory := true
           can_access_reports := true
           can_export_data := true
           can_modify_filters := true
           can_view_costs := true
           can_view_profits := false }
  else if role = "accountant" then
    some { can_access_overview := true
           can_access_projects := false
           can_access_crops := false
           can_access_financials := true
           can_access_sales := true
           can_access_purchases := true
           can_access_inventory := true
           can_access_reports := true
           can_export_data := true
           can_modify_filters := false
           can_view_costs := true
           can_view_profits := true }
  else none

/-- A per-key optional assignment of flag values inside a `vals` dict:
`none` means the key is absent from the dict. -/
structure FlagPatch where
  can_access_overview : Option Bool := none
  can_access_projects : Option Bool := none
  can_access_crops : Option Bool := none
  can_access_financials : Option Bool := none
  can_access_sales : Option Bool := none
  can_access_purchases : Option Bool := none
  can_access_inventory : Option Bool := none
  can_access_reports : Option Bool := none
  can_export_data : Option Bool := none
  can_modify_filters : Option Bool := none
  can_view_costs : Option Bool := none
  can_view_profits : Option Bool := none
deriving DecidableEq

/-- Apply the flag keys present in a vals dict over a base set of flags. -/
def applyPatch (base : AccessFlags) (p : FlagPatch) : AccessFlags :=
  { can_access_overview := p.can_access_overview.getD base.can_access_overview
    can_access_projects := p.can_access_projects.getD base.can_access_projects
    can_access_crops := p.can_access_crops.getD base.can_access_crops
    can_access_financials := p.can_access_financials.getD base.can_access_financials
    can_access_sales := p.can_access_sales.getD base.can_access_sales
    can_access_purchases := p.can_access_purchases.getD base.can_access_purchases
    can_access_inventory := p.can_access_inventory.getD base.can_access_inventory
    can_access_reports := p.can_access_reports.getD base.can_access_reports
    can_export_data := p.can_export_data.getD base.can_export_data
    can_modify_filters := p.can_modify_filters.getD base.can_modify_filters
    can_view_costs := p.can_view_costs.getD base.can_view_costs
    can_view_profits := p.can_view_profits.getD base.can_view_profits }

/-- Turn a full set of flags into a patch that assigns every flag key;
this is what `vals.update(role_permissions)` produces, since the template
dict carries all twelve keys. -/
def patchOfFlags (f : AccessFlags) : FlagPatch :=
  { can_access_overview := some f.can_access_overview
    can_access_projects := some f.can_access_projects
    can_access_crops := some f.can_access_crops
    can_access_financials := some f.can_access_financials
    can_access_sales := some f.can_access_sales
    can_access_purchases := some f.can_access_purchases
    can_access_inventory := some f.can_access_inventory
    can_access_reports := some f.can_access_reports
    can_export_data := some f.can_export_data
    can_modify_filters := some f.can_modify_filters
    can_view_costs := some f.can_view_costs
    can_view_profits := some f.can_view_profits }

/-- The parts of a create/write `vals` dict relevant to the access model:
an optional `role` key and the flag keys. -/
structure AccessVals where
  role : Option String := none
  flags : FlagPatch := {}

/-- The `if role in vals: vals.update(self._get_role_permissions(vals[role]))`
step shared by `FarmDashboardAccess.create` and `FarmDashboardAccess.write`. -/
def applyRoleDefaults (vals : AccessVals) : AccessVals :=
  match vals.role with
  | some r =>
    match role_permissions r with
    | some t => { vals with flags := patchOfFlags t }
    | none => vals
  | none => vals

/-- A persisted `farm.dashboard.access` record. -/
structure AccessRecord where
  role : String
  flags : AccessFlags
deriving DecidableEq

namespace FarmDashboardAccess

/-- Embeds `FarmDashboardAccess.create` for a single vals dict: role-based
templating followed by the ORM create, with unset flag columns taking their
field defaults. -/
def create (vals : AccessVals) : AccessRecord :=
  let v := applyRoleDefaults vals
  { role := v.role.getD "", flags := applyPatch defaultAccessFlags v.flags }

/-- Embeds `FarmDashboardAccess.write`: role-based templating followed by the
ORM write over the existing record. -/
def write (rec : AccessRecord) (vals : AccessVals) : AccessRecord :=
  let v := applyRoleDefaults vals
  { role := v.role.getD rec.role, flags := applyPatch rec.flags v.flags }

end FarmDashboardAccess

/-- The security-group memberships of a user that this module inspects. -/
structure UserGroups where
  base_group_system : Bool := false
  base_group_erp_manager : Bool := false
  group_farm_owner : Bool := false
  group_farm_manager : Bool := false
  group_farm_accountant : Bool := false
  group_farm_dashboard_access : Bool := false
  group_farm_user : Bool := false
deriving DecidableEq

/-- The `tabs` sub-dict of a permission payload. -/
structure TabPerms where
  overview : Bool
  projects : Bool
  crops : Bool
  financials : Bool
  sales : Bool
  purchases : Bool
  inventory : Bool
  reports : Bool
deriving DecidableEq

/-- The `permissions` sub-dict of a permission payload. -/
structure CapPerms where
  export_data : Bool
  modify_filters : Bool
  view_costs : Bool
  view_profits : Bool
deriving DecidableEq

/-- The payload returned by `get_user_permissions`. -/
structure PermResult where
  role : String
  tabs : TabPerms
  permissions : CapPerms
deriving DecidableEq

/-- Project the tab flags of an access record into the payload shape. -/
def tabsOfFlags (f : AccessFlags) : TabPerms :=
  { overview := f.can_access_overview
    projects := f.can_access_projects
    crops := f.can_access_crops
    financials := f.can_access_financials
    sales := f.can_access_sales
    purchases := f.can_access_purchases
    inventory := f.can_access_inventory
    reports := f.can_access_reports }

/-- Project the capability flags of an access record into the payload shape. -/
def capsOfFlags (f : AccessFlags) : CapPerms :=
  { export_data := f.can_export_data
    modify_filters := f.can_modify_filters
    view_costs := f.can_view_costs
    view_profits := f.can_view_profits }

/-- The all-`False` payload returned when no role can be resolved. -/
def no_access_permissions : PermResult :=
  { role := "no_access"
    tabs := { overview := false, projects := false, crops := false
              financials := false, sales := false, purchases := false
              inventory := false, reports := false }
    permissions := { export_data := false, modify_filters := false
                     view_costs := false, view_profits := false } }

/-- Build the payload from a stored access record. -/
def permsOfRecord (r : AccessRecord) : PermResult :=
  { role := r.role, tabs := tabsOfFlags r.flags, permissions := capsOfFlags r.flags }

/-- The fallback block at the end of `get_user_permissions`, used when record
creation failed: read each flag from the role template with `dict.get`
defaults. -/
def fallbackPerms (role : String) : PermResult :=
  match role_permissions role with
  | some t => { role := role, tabs := tabsOfFlags t, permissions := capsOfFlags t }
  | none =>
    { role := role
      tabs := { overview := true, projects := true, crops := true
                financials := true, sales := true, purchases := true
                inventory := true, reports := true }
      permissions := { export_data := false, modify_filters := true
                       view_costs := true, view_profits := false } }

/-- The group-membership role chain inlined in `get_user_permissions`. -/
def resolveGroupRole (g : UserGroups) : Option String :=
  if g.base_group_system || g.base_group_erp_manager then some "owner"
  else if g.group_farm_owner then some "owner"
  else if g.group_farm_manager then some "manager"
  else if g.group_farm_accountant then some "accountant"
  else none

/-- Persistence operations performed by `get_user_permissions`, in order. -/
inductive AccessEffect
  | searchRecord
  | writeRoleOnRecord (role : String)
  | createRecord (role : String)
deriving DecidableEq

/-- Embeds `FarmDashboardAccess.get_user_permissions`.  `store` is the result
the record search would return; `writeOk` says whether the attempted
self-heal `write({role: role})` on a mismatched record succeeds, and
`createOk` whether the attempted record creation succeeds — an exception in
either is caught and logged in the source, so a failed self-heal leaves the
stale record in place and the function falls through to returning its stored
role and flags.  Returns the payload together with the list of store
operations attempted. -/
def get_user_permissions (g : UserGroups) (store : Option AccessRecord)
    (writeOk createOk : Bool) : PermResult × List AccessEffect :=
  match resolveGroupRole g with
  | none => (no_access_permissions, [])
  | some role =>
    match store with
    | some r =>
      if r.role ≠ role then
        if writeOk then
          let r2 := FarmDashboardAccess.write r { role := some role }
          (permsOfRecord r2, [AccessEffect.searchRecord, AccessEffect.writeRoleOnRecord role])
        else
          (permsOfRecord r, [AccessEffect.searchRecord, AccessEffect.writeRoleOnRecord role])
      else
        (permsOfRecord r, [AccessEffect.searchRecord])
    | none =>
      if createOk then
        let r2 := FarmDashboardAccess.create { role := some role }
        (permsOfRecord r2, [AccessEffect.searchRecord, AccessEffect.createRecord role])
      else
        (fallbackPerms role, [AccessEffect.searchRecord, AccessEffect.createRecord role])

/-! Embedding of dashboard_data.py, domain builder -/

/-- A value occurring inside a domain condition. -/
inductive DomVal
  | s (v : String)
  | i (v : ℤ)
  | il (v : List ℤ)
  | q (v : ℚ)
deriving DecidableEq

/-- One element of an Odoo search domain: either the `|` operator or a
`(field, operator, value)` condition. -/
inductive DomElem
  | orOp
  | cond (field oper : String) (val : DomVal)
deriving DecidableEq

/-- A Python value arriving in the `farm_id` or `crop_id` filter slot:
the front end may send an integer or a string. -/
inductive PyVal
  | pint (n : ℤ)
  | pstr (s : String)
deriving DecidableEq

/-- Python truthiness of such a value. -/
def PyVal.truthy : PyVal → Bool
  | .pint n => n ≠ 0
  | .pstr s => s ≠ ""

/-- Decimal value of a digit character. -/
def digitVal (c : Char) : Option ℕ :=
  if c.isDigit then some (c.toNat - 48) else none

/-- Accumulate decimal digits; any non-digit character fails the parse. -/
def parseDigitsAux : List Char → ℕ → Option ℕ
  | [], acc => some acc
  | c :: cs, acc =>
    match digitVal c with
    | some d => parseDigitsAux cs (acc * 10 + d)
    | none => none

/-- Parse a nonempty run of decimal digits. -/
def parseDigits (cs : List Char) : Option ℕ :=
  match cs with
  | [] => none
  | _ => parseDigitsAux cs 0

/-- Models Python `int(str)`: surrounding spaces stripped, optional sign,
then decimal digits; `none` models the ValueError raised on anything else.
(Digit-group underscores and non-space whitespace are not modelled.) -/
def pyStrToInt (s : String) : Option ℤ :=
  let cs := ((s.data.dropWhile (· = ' ')).reverse.dropWhile (· = ' ')).reverse
  match cs with
  | '-' :: rest => (parseDigits rest).map (fun n => -(n : ℤ))
  | '+' :: rest => (parseDigits rest).map (fun n => (n : ℤ))
  | rest => (parseDigits rest).map (fun n => (n : ℤ))

/-- Embeds the Python `int(...)` conversion used on filter values: an integer
passes through, a string is parsed. -/
def pyInt : PyVal → Option ℤ
  | .pint n => some n
  | .pstr s => pyStrToInt s

/-- The filter payload accepted by `_build_domain`; `none` models an absent
key (or a JSON null, which is equally falsy). -/
structure Filters where
  date_from : Option String := none
  date_to : Option String := none
  farm_ids : Option (List ℤ) := none
  farm_id : Option PyVal := none
  crop_id : Option PyVal := none
  stage : Option String := none
  search : Option String := none
  budget_min : Option ℚ := none
  budget_max : Option ℚ := none

/-- The `try: int(...) except: pass` block shared by the `farm_id` and
`crop_id` branches of `_build_domain`: emit an equality condition when the
value is truthy, parses, and is nonzero; otherwise contribute nothing. -/
def idFilterClause (field : String) (v : Option PyVal) : List DomElem :=
  match v with
  | some w =>
    if w.truthy then
      match pyInt w with
      | some n => if n ≠ 0 then [DomElem.cond field "=" (.i n)] else []
      | none => []
    else []
  | none => []

/-- Embeds `FarmDashboardData._build_domain`. -/
def _build_domain (filters : Filters) : List DomElem :=
  let dFrom := match filters.date_from with
    | some s => if s ≠ "" then [DomElem.cond "start_date" ">=" (.s s)] else []
    | none => []
  let dTo := match filters.date_to with
    | some s => if s ≠ "" then [DomElem.cond "start_date" "<=" (.s s)] else []
    | none => []
  let farm := match filters.farm_ids with
    | some l =>
      if l ≠ [] then [DomElem.cond "farm_id" "in" (.il l)]
      else idFilterClause "farm_id" filters.farm_id
    | none => idFilterClause "farm_id" filters.farm_id
  let crop := idFilterClause "crop_id" filters.crop_id
  let stage := match filters.stage with
    | some s => if s ≠ "" then [DomElem.cond "state" "=" (.s s)] else []
    | none => []
  let search := match filters.search with
    | some s =>
      if s ≠ "" then
        [DomElem.orOp, DomElem.cond "name" "ilike" (.s s), DomElem.cond "code" "ilike" (.s s)]
      else []
    | none => []
  let bMin := match filters.budget_min with
    | some x => if x ≠ 0 then [DomElem.cond "budget" ">=" (.q x)] else []
    | none => []
  let bMax := match filters.budget_max with
    | some x => if x ≠ 0 then [DomElem.cond "budget" "<=" (.q x)] else []
    | none => []
  dFrom ++ dTo ++ farm ++ crop ++ stage ++ search ++ bMin ++ bMax

/-! Embedding of dashboard_data.py, KPI computation -/

/-- A `farm.cultivation.project` record, restricted to the fields this
module reads. -/
structure Project where
  name : String := ""
  state : String := "draft"
  field_area : ℚ := 0
  budget : ℚ := 0
  actual_cost : ℚ := 0
  revenue : ℚ := 0
  profit : ℚ := 0
  planned_end_date : Option ℤ := none
  actual_end_date : Option ℤ := none
deriving DecidableEq

/-- Embeds `_get_active_project_states`. -/
def _get_active_project_states : List String :=
  ["preparation", "sowing", "growing", "harvest", "sales"]

/-- A generator sum such as `sum(p.budget for p in projects if p.budget)`:
only truthy (nonzero) values are summed, which leaves the total unchanged. -/
def sumTruthy (l : List ℚ) : ℚ := (l.filter (fun x => x ≠ 0)).sum

/-- The KPI dict produced by `_calculate_real_kpis`.  `budget_variance` and
`profit_margin` are `none` when the role-gated `kpis.update` did not add
those keys. -/
structure Kpis where
  active_projects : ℕ
  total_projects : ℕ
  completed_projects : ℕ
  total_area : ℚ
  total_budget : ℚ
  total_actual_cost : ℚ
  total_revenue : ℚ
  total_profit : ℚ
  completion_rate : ℚ
  budget_variance : Option ℚ
  profit_margin : Option ℚ
deriving DecidableEq

/-- Embeds `_get_zero_kpis`. -/
def _get_zero_kpis : Kpis :=
  { active_projects := 0, total_projects := 0, completed_projects := 0
    total_area := 0, total_budget := 0, total_actual_cost := 0
    total_revenue := 0, total_profit := 0, completion_rate := 0
    budget_variance := some 0, profit_margin := some 0 }

/-- The body of the `try` block in `_calculate_real_kpis`; a `none` result
models an exception escaping the body, which the only fallible operations
(the three divisions, via `divChecked`) could cause. -/
def _calculate_real_kpis_core (projects : List Project) (user_role : String) :
    Option Kpis :=
  if projects.isEmpty then some _get_zero_kpis
  else
    let active := projects.filter (fun p => decide (p.state ∈ _get_active_project_states))
    let completed := projects.filter (fun p => p.state = "done")
    let total_area := sumTruthy (projects.map (·.field_area))
    let total_budget := sumTruthy (projects.map (·.budget))
    let total_actual_cost := sumTruthy (projects.map (·.actual_cost))
    let total_revenue := sumTruthy (projects.map (·.revenue))
    let total_profit := total_revenue - total_actual_cost
    (if total_budget > 0 then
        (divChecked (total_actual_cost - total_budget) total_budget).map (· * 100)
      else some 0).bind fun budget_variance =>
    (if total_revenue > 0 then
        (divChecked total_profit total_revenue).map (· * 100)
      else some 0).bind fun profit_margin =>
    (if projects.length > 0 then
        (divChecked (completed.length : ℚ) (projects.length : ℚ)).map (· * 100)
      else some 0).bind fun completion_rate =>
    some
      { active_projects := active.length
        total_projects := projects.length
        completed_projects := completed.length
        total_area := round2 total_area
        total_budget := round2 total_budget
        total_actual_cost := round2 total_actual_cost
        total_revenue := round2 total_revenue
        total_profit := round2 total_profit
        completion_rate := round2 completion_rate
        budget_variance :=
          if user_role = "owner" ∨ user_role = "manager" ∨ user_role = "demo_user"
          then some (round2 budget_variance) else none
        profit_margin :=
          if user_role = "owner" ∨ user_role = "manager" ∨ user_role = "demo_user"
          then some (round2 profit_margin) else none }

/-- Embeds `_calculate_real_kpis`: the surrounding `except` clause converts
any exception into the zero-KPI payload. -/
def _calculate_real_kpis (projects : List Project) (user_role : String) : Kpis :=
  (_calculate_real_kpis_core projects user_role).getD _get_zero_kpis

/-! Embedding of dashboard_data.py, access gate, overview handler and dispatch -/

/-- Embeds `FarmDashboardData._get_user_role`. -/
def _get_user_role (g : UserGroups) : String :=
  if g.group_farm_owner then "owner"
  else if g.group_farm_manager then "manager"
  else if g.group_farm_accountant then "accountant"
  else "user"

/-- Embeds `FarmDashboardData._check_dashboard_access`, including its final
unconditional `return True`. -/
def _check_dashboard_access (g : UserGroups) : Bool :=
  if g.base_group_system then true
  else if g.group_farm_dashboard_access then true
  else if g.group_farm_user then true
  else true

/-- The permission-denied UserError text raised in `get_dashboard_data`
(contraction in the source text expanded). -/
def permissionDeniedMsg : String :=
  "You do not have permission to access the farm dashboard."

/-- The parts of an overview payload that the claims reference; the
`recent_activities`, `alerts`, `charts` and `last_updated` keys carry no
arithmetic content and are omitted. -/
structure OverviewPayload where
  kpis : Kpis
  user_role : String
  data_source : String
deriving DecidableEq

/-- The KPI block of `_get_demo_overview_data`, with its canned numbers. -/
def demoOverviewKpis : Kpis :=
  { active_projects := 12, total_projects := 18, completed_projects := 6
    total_area := 450.5, total_budget := 125000, total_actual_cost := 96500
    total_revenue := 125000, total_profit := 28500
    completion_rate := 33.3
    budget_variance := some (-22.8), profit_margin := some 22.8 }

/-- Embeds `_get_demo_overview_data`. -/
def _get_demo_overview_data : OverviewPayload :=
  { kpis := demoOverviewKpis, user_role := "demo_user", data_source := "demo" }

/-- The ORM environment seen by the data facade: whether the
`farm.cultivation.project` model is registered, and the search primitive
over cultivation projects (abstracted, since no claim depends on domain
evaluation semantics). -/
structure DashEnv where
  projectModelExists : Bool
  search : List DomElem → List Project

/-- Embeds `_get_overview_data`: demo fallback when the farm model is absent,
otherwise live KPIs over the searched projects.  The embedded code path
raises no exception, so the `except` fallback does not fire here. -/
def _get_overview_data (env : DashEnv) (filters : Filters) (user_role : String) :
    OverviewPayload :=
  let domain := _build_domain filters
  if ¬ env.projectModelExists then _get_demo_overview_data
  else
    let projects := env.search domain
    { kpis := _calculate_real_kpis projects user_role
      user_role := user_role
      data_source := "live" }

/-- Result of `get_dashboard_data`.  The seven non-overview handlers are
abstracted to their selector, since every claim touches only the access gate
and the overview handler. -/
inductive DashboardResult
  | overview (p : OverviewPayload)
  | otherTab (tabName : String)
  | errorPayload (msg : String)
deriving DecidableEq

/-- Embeds `get_dashboard_data`: the access gate, the `tab or overview`
defaulting, and the `method_map` dispatch with unknown tabs falling back to
overview.  A raised UserError is caught by the outer `except` and returned
as an error payload. -/
def get_dashboard_data (g : UserGroups) (env : DashEnv) (filters : Filters)
    (tab : String) : DashboardResult :=
  if ¬ _check_dashboard_access g then .errorPayload permissionDeniedMsg
  else
    let user_role := _get_user_role g
    let t := if tab = "" then "overview" else tab
    if t = "overview" then .overview (_get_overview_data env filters user_role)
    else if t = "projects" ∨ t = "crops" ∨ t = "financials" ∨ t = "sales"
        ∨ t = "purchases" ∨ t = "inventory" ∨ t = "reports" then .otherTab t
    else .overview (_get_overview_data env filters user_role)

/-! Embedding of dashboard_data.py, project status workflow -/

/-- The `valid_states` list in `update_project_status`. -/
def valid_states : List String :=
  ["draft", "planning", "preparation", "sowing", "growing", "harvest", "sales", "done", "cancel"]

/-- Embeds `_calculate_state_progress`; unknown states fall back to 0 via
`dict.get(state, 0)`. -/
def _calculate_state_progress (state : String) : ℤ :=
  if state = "draft" then 0
  else if state = "planning" then 10
  else if state = "preparation" then 20
  else if state = "sowing" then 35
  else if state = "growing" then 60
  else if state = "harvest" then 80
  else if state = "sales" then 95
  else if state = "done" then 100
  else if state = "cancel" then 0
  else 0

/-- Embeds `get_project_state_transitions`: the dict of valid outgoing
transitions per state, as an association list. -/
def get_project_state_transitions : List (String × List String) :=
  [("draft", ["planning", "cancel"]),
   ("planning", ["preparation", "cancel"]),
   ("preparation", ["sowing", "cancel"]),
   ("sowing", ["growing", "cancel"]),
   ("growing", ["harvest", "cancel"]),
   ("harvest", ["sales", "done", "cancel"]),
   ("sales", ["done", "cancel"]),
   ("done", []),
   ("cancel", [])]

/-- The structured result dict of `update_project_status`.  The
`actual_end_date` key of a success payload is `update_data.get(...)`, hence
set only when this call itself stamped the end date. -/
inductive UpdateStatusResult
  | ok (old_status new_status : String) (progress : ℤ)
      (actual_end_date : Option ℤ) (message : String)
  | err (error : String)
deriving DecidableEq

/-- Embeds `update_project_status`.  `modelExists` is the registry probe,
`project` the result of `browse` plus `exists()`, `today` the current date.
The written record itself is not part of the returned payload. -/
def update_project_status (modelExists : Bool) (project : Option Project)
    (new_status : String) (today : ℤ) : UpdateStatusResult :=
  if ¬ modelExists then .err "Farm cultivation project model not available"
  else
    match project with
    | none => .err "Project not found"
    | some p =>
      if new_status ∉ valid_states then .err ("Invalid status: " ++ new_status)
      else
        let old_status := p.state
        let progress := _calculate_state_progress new_status
        let stamped := new_status = "done" ∧ p.actual_end_date = none
        .ok old_status new_status progress
          (if stamped then some today else none)
          ("Project status updated from " ++ old_status ++ " to " ++ new_status)

/-! Embedding of dashboard_data.py, aged receivables and payables -/

/-- An `account.move` document, restricted to the fields the aging pass
reads.  `invoice_date_due` is carried by the entity but the source aging
loop reads `invoice_date`. -/
structure AccountMove where
  move_type : String
  state : String
  amount_residual : ℚ
  invoice_date : Option ℤ
  invoice_date_due : Option ℤ := none
deriving DecidableEq

/-- The search domain for open receivables. -/
def receivableFilter (m : AccountMove) : Bool :=
  (m.move_type = "out_invoice" ∨ m.move_type = "out_refund")
    ∧ m.state = "posted" ∧ m.amount_residual > 0

/-- The search domain for open payables. -/
def payableFilter (m : AccountMove) : Bool :=
  (m.move_type = "in_invoice" ∨ m.move_type = "in_refund")
    ∧ m.state = "posted" ∧ m.amount_residual > 0

/-- The four aging windows. -/
structure AgedBuckets where
  b0_30 : ℚ := 0
  b31_60 : ℚ := 0
  b61_90 : ℚ := 0
  b90plus : ℚ := 0
deriving DecidableEq

/-- One iteration of the aging loop: documents without an `invoice_date` are
skipped, otherwise the residual is added to the window selected by
`(today - invoice_date).days`. -/
def agedStep (today : ℤ) (b : AgedBuckets) (m : AccountMove) : AgedBuckets :=
  match m.invoice_date with
  | none => b
  | some d =>
    let days := today - d
    if days ≤ 30 then { b with b0_30 := b.b0_30 + m.amount_residual }
    else if days ≤ 60 then { b with b31_60 := b.b31_60 + m.amount_residual }
    else if days ≤ 90 then { b with b61_90 := b.b61_90 + m.amount_residual }
    else { b with b90plus := b.b90plus + m.amount_residual }

/-- The full aging loop over a list of documents. -/
def ageMoves (moves : List AccountMove) (today : ℤ) : AgedBuckets :=
  moves.foldl (agedStep today) {}

/-- The payload of `_get_aged_receivables_payables`. -/
structure AgedAnalysis where
  receivables : AgedBuckets
  payables : AgedBuckets
  total_receivables : ℚ
  total_payables : ℚ
deriving DecidableEq

/-- Embeds `_get_aged_receivables_payables` over an explicit list of account
moves; `sum(aged.values())` is the sum of the four windows. -/
def _get_aged_receivables_payables (moves : List AccountMove) (today : ℤ) :
    AgedAnalysis :=
  let ar := ageMoves (moves.filter receivableFilter) today
  let ap := ageMoves (moves.filter payableFilter) today
  { receivables := ar
    payables := ap
    total_receivables := ar.b0_30 + ar.b31_60 + ar.b61_90 + ar.b90plus
    total_payables := ap.b0_30 + ap.b31_60 + ap.b61_90 + ap.b90plus }

/-- Modelled from the spec: the aging pass as the claim words it, with the
age in days measured from the due date of the document instead of from its
invoice date.  Used only to compare against the source embedding. -/
def agedStepByDueDate (today : ℤ) (b : AgedBuckets) (m : AccountMove) : AgedBuckets :=
  match m.invoice_date_due with
  | none => b
  | some d =>
    let days := today - d
    if days ≤ 30 then { b with b0_30 := b.b0_30 + m.amount_residual }
    else if days ≤ 60 then { b with b31_60 := b.b31_60 + m.amount_residual }
    else if days ≤ 90 then { b with b61_90 := b.b61_90 + m.amount_residual }
    else { b with b90plus := b.b90plus + m.amount_residual }

/-- Modelled from the spec: receivable aging keyed by due date. -/
def ageReceivablesByDueDate (moves : List AccountMove) (today : ℤ) : AgedBuckets :=
  (moves.filter receivableFilter).foldl (agedStepByDueDate today) {}

/-! Embedding of dashboard_kpi.py -/

/-- The payload of `FarmDashboardKPI.calculate_financial_kpis`. -/
structure FinancialKpis where
  total_budget : ℚ
  total_actual_cost : ℚ
  total_revenue : ℚ
  total_profit : ℚ
  budget_variance : ℚ
  profit_margin : ℚ
  roi : ℚ
deriving DecidableEq

/-- Embeds `calculate_financial_kpis` over the searched project list; a
`none` result models a ZeroDivisionError escaping (the method has no
`except` clause).  Each ratio is guarded by Python truthiness of its
denominator. -/
def calculate_financial_kpis_core (projects : List Project) : Option FinancialKpis :=
  let total_budget := (projects.map (·.budget)).sum
  let total_actual := (projects.map (·.actual_cost)).sum
  let total_revenue := (projects.map (·.revenue)).sum
  let total_profit := (projects.map (·.profit)).sum
  (if total_budget ≠ 0 then
      (divChecked (total_actual - total_budget) total_budget).map (· * 100)
    else some 0).bind fun budget_variance =>
  (if total_revenue ≠ 0 then
      (divChecked total_profit total_revenue).map (· * 100)
    else some 0).bind fun profit_margin =>
  (if total_actual ≠ 0 then
      (divChecked total_profit total_actual).map (· * 100)
    else some 0).bind fun roi =>
  some
    { total_budget := total_budget
      total_actual_cost := total_actual
      total_revenue := total_revenue
      total_profit := total_profit
      budget_variance := budget_variance
      profit_margin := profit_margin
      roi := roi }

/-! Embedding of dashboard_bus_handlers.py -/

/-- A message published on the bus.  The `data` dict and the timestamp of the
event record carry no content any claim depends on and are omitted. -/
structure BusEvent where
  channel : String
  msg_type : String
deriving DecidableEq

/-- Embeds `_get_dashboard_channel`. -/
def _get_dashboard_channel (company_id : ℤ) : String :=
  "farm_dashboard_" ++ toString company_id

/-- Embeds `_send_dashboard_notification` as its effect on the bus:
`publishOk` says whether `_sendone` raises; the `except` clause swallows the
failure, so the call contributes either exactly one message or none and
always returns normally. -/
def _send_dashboard_notification (publishOk : Bool) (msg_type : String)
    (company_id : ℤ) : List BusEvent :=
  if publishOk then [{ channel := _get_dashboard_channel company_id, msg_type := msg_type }]
  else []

/-- Embeds `_invalidate_dashboard_cache`. -/
def _invalidate_dashboard_cache (publishOk : Bool) (company_id : ℤ) : List BusEvent :=
  _send_dashboard_notification publishOk "invalidate_cache" company_id

/-- A `farm.cultivation.project` record as seen by the bus handler. -/
structure BusProject where
  id : ℤ := 0
  name : String := ""
  farm_id : ℤ := 0
  state : String := "draft"
  budget : ℚ := 0
  company_id : ℤ := 0
deriving DecidableEq

/-- Embeds `CultivationProjectBusHandler.create`: the super create succeeds
first, then per created record one `project_created` message and one
`invalidate_cache` message are attempted.  `ok1`/`ok2` are the publish
outcomes of the two attempts; the function returns the created records
together with the bus traffic. -/
def cultivation_project_create (vals_list : List BusProject) (ok1 ok2 : Bool) :
    List BusProject × List BusEvent :=
  (vals_list,
    (vals_list.map (fun r =>
      _send_dashboard_notification ok1 "project_created" r.company_id
        ++ _invalidate_dashboard_cache ok2 r.company_id)).flatten)

/-! Derived closed forms and measurement helpers used by the theorems -/

/-- A rational is a whole number of cents. -/
def isCent (q : ℚ) : Prop := ∃ n : ℤ, q = (n : ℚ) / 100

/-- Closed form of the KPI record `_calculate_real_kpis` builds for a
nonempty project list (the divisions written as plain field division, which
the guards keep safe). -/
def realKpisFor (projects : List Project) (user_role : String) : Kpis :=
  let active := projects.filter (fun p => decide (p.state ∈ _get_active_project_states))
  let completed := projects.filter (fun p => p.state = "done")
  let total_budget := sumTruthy (projects.map (·.budget))
  let total_actual_cost := sumTruthy (projects.map (·.actual_cost))
  let total_revenue := sumTruthy (projects.map (·.revenue))
  let total_profit := total_revenue - total_actual_cost
  { active_projects := active.length
    total_projects := projects.length
    completed_projects := completed.length
    total_area := round2 (sumTruthy (projects.map (·.field_area)))
    total_budget := round2 total_budget
    total_actual_cost := round2 total_actual_cost
    total_revenue := round2 total_revenue
    total_profit := round2 total_profit
    completion_rate := round2
      (if projects.length > 0 then ((completed.length : ℚ) / (projects.length : ℚ)) * 100 else 0)
    budget_variance :=
      if user_role = "owner" ∨ user_role = "manager" ∨ user_role = "demo_user"
      then some (round2
        (if total_budget > 0 then ((total_actual_cost - total_budget) / total_budget) * 100 else 0))
      else none
    profit_margin :=
      if user_role = "owner" ∨ user_role = "manager" ∨ user_role = "demo_user"
      then some (round2
        (if total_revenue > 0 then (total_profit / total_revenue) * 100 else 0))
      else none }

/-- Closed form of the record `calculate_financial_kpis` builds. -/
def financialKpisFor (projects : List Project) : FinancialKpis :=
  let total_budget := (projects.map (·.budget)).sum
  let total_actual := (projects.map (·.actual_cost)).sum
  let total_revenue := (projects.map (·.revenue)).sum
  let total_profit := (projects.map (·.profit)).sum
  { total_budget := total_budget
    total_actual_cost := total_actual
    total_revenue := total_revenue
    total_profit := total_profit
    budget_variance :=
      if total_budget ≠ 0 then ((total_actual - total_budget) / total_budget) * 100 else 0
    profit_margin :=
      if total_revenue ≠ 0 then (total_profit / total_revenue) * 100 else 0
    roi := if total_actual ≠ 0 then (total_profit / total_actual) * 100 else 0 }

/-- A document carries an invoice date (the aging loop skips the others). -/
def hasInvoiceDate (m : AccountMove) : Bool := m.invoice_date.isSome

/-- Invoice-date age lands in the 0 to 30 day window. -/
def ageWindow0 (today : ℤ) (m : AccountMove) : Bool :=
  match m.invoice_date with
  | some d => today - d ≤ 30
  | none => false

/-- Invoice-date age lands in the 31 to 60 day window. -/
def ageWindow1 (today : ℤ) (m : AccountMove) : Bool :=
  match m.invoice_date with
  | some d => 30 < today - d ∧ today - d ≤ 60
  | none => false

/-- Invoice-date age lands in the 61 to 90 day window. -/
def ageWindow2 (today : ℤ) (m : AccountMove) : Bool :=
  match m.invoice_date with
  | some d => 60 < today - d ∧ today - d ≤ 90
  | none => false

/-- Invoice-date age lands in the over-90-day window. -/
def ageWindow3 (today : ℤ) (m : AccountMove) : Bool :=
  match m.invoice_date with
  | some d => 90 < today - d
  | none => false

/-- Total residual amount of a list of documents. -/
def residualSum (l : List AccountMove) : ℚ := (l.map (·.amount_residual)).sum

/-! Theorems -/

/-- C2: `_check_dashboard_access` returns `True` for every user because of its
final unconditional `return True`, so the permission-denied UserError branch
at the top of `get_dashboard_data` can never fire: no caller of the entry
point is denied by the access gate, whatever the groups, environment,
filters or requested tab. -/
theorem dashboard_access_gate_always_allows :
    ∀ (g : UserGroups) (env : DashEnv) (filters : Filters) (tab : String),
      _check_dashboard_access g = true ∧
      get_dashboard_data g env filters tab ≠ DashboardResult.errorPayload permissionDeniedMsg := by
  intro g env filters tab
  have h1 : _check_dashboard_access g = true := by
    simp [_check_dashboard_access]
  refine ⟨h1, ?_⟩
  simp only [get_dashboard_data, h1]
  split_ifs <;> simp_all

/-- C5: assigning a role through `FarmDashboardAccess.create` or
`FarmDashboardAccess.write` overwrites all eight tab flags and all four
capability flags with the fixed per-role template (owner: all twelve true;
manager: all tabs plus export, modify_filters and view_costs true,
view_profits false; accountant: projects and crops false, all other tabs
true, export true, modify_filters false, view_costs and view_profits true),
regardless of any flag values supplied in the same vals dict and of the
previous contents of the record. -/
theorem role_assignment_forces_flag_template :
    ∀ (p : FlagPatch) (rec : AccessRecord),
      (FarmDashboardAccess.create { role := some "owner", flags := p }).flags =
        ⟨true, true, true, true, true, true, true, true, true, true, true, true⟩
    ∧ (FarmDashboardAccess.write rec { role := some "owner", flags := p }).flags =
        ⟨true, true, true, true, true, true, true, true, true, true, true, true⟩
    ∧ (FarmDashboardAccess.create { role := some "manager", flags := p }).flags =
        ⟨true, true, true, true, true, true, true, true, true, true, true, false⟩
    ∧ (FarmDashboardAccess.write rec { role := some "manager", flags := p }).flags =
        ⟨true, true, true, true, true, true, true, true, true, true, true, false⟩
    ∧ (FarmDashboardAccess.create { role := some "accountant", flags := p }).flags =
        ⟨true, false, false, true, true, true, true, true, true, false, true, true⟩
    ∧ (FarmDashboardAccess.write rec { role := some "accountant", flags := p }).flags =
        ⟨true, false, false, true, true, true, true, true, true, false, true, true⟩ :=
  fun _ _ => ⟨rfl, rfl, rfl, rfl, rfl, rfl⟩

/-- C7: creating one cultivation project publishes exactly one
`project_created` message and exactly one `invalidate_cache` message, both
on the channel named `farm_dashboard_` followed by the company id of the
record; and since `_send_dashboard_notification` catches every publish
exception, the create returns its records whatever the publish outcomes. -/
theorem project_create_emits_one_event_pair :
    ∀ (v : BusProject) (ok1 ok2 : Bool),
      (cultivation_project_create [v] ok1 ok2).1 = [v]
    ∧ (cultivation_project_create [v] true true).2 =
        [{ channel := _get_dashboard_channel v.company_id, msg_type := "project_created" },
         { channel := _get_dashboard_channel v.company_id, msg_type := "invalidate_cache" }]
    ∧ _get_dashboard_channel v.company_id = "farm_dashboard_" ++ toString v.company_id := by
  intro v ok1 ok2
  refine ⟨rfl, ?_, rfl⟩
  simp [cultivation_project_create, _send_dashboard_notification, _invalidate_dashboard_cache]

/-- Helper: whenever the group chain resolves a role and the self-heal write
succeeds, the payload of `get_user_permissions` reports exactly that role,
through every record branch (matching record, self-healed record, fresh
record, create-failed fallback). -/
theorem get_user_permissions_role_eq (g : UserGroups) (store : Option AccessRecord)
    (createOk : Bool) (role : String) (h : resolveGroupRole g = some role) :
    ((get_user_permissions g store true createOk).1).role = role := by
  unfold get_user_permissions
  rw [h]
  cases store with
  | none =>
    by_cases hc : createOk <;>
      cases hrp : role_permissions role <;>
        simp [hc, hrp, FarmDashboardAccess.create, applyRoleDefaults, permsOfRecord, fallbackPerms]
  | some r =>
    by_cases hr : r.role = role <;>
      cases hrp : role_permissions role <;>
        simp [hr, hrp, FarmDashboardAccess.write, applyRoleDefaults, permsOfRecord]

/-- C6: `get_user_permissions` resolves the role purely from group
membership in the fixed priority order (system or ERP manager group gives
owner, else farm-owner group gives owner, else farm-manager group gives
manager, else farm-accountant group gives accountant) — the payload carries
that role on every path on which the caught self-heal write does not fail,
while a caught self-heal write failure makes the function fall through to
the stale stored record, whose payload is returned unchanged; and a user in
none of these groups short-circuits to the all-false `no_access` payload
with no record search, write or creation performed. -/
theorem get_user_permissions_priority_and_short_circuit :
    ∀ (g : UserGroups) (store : Option AccessRecord) (writeOk createOk : Bool),
      (writeOk = true →
        (g.base_group_system = true ∨ g.base_group_erp_manager = true) →
        ((get_user_permissions g store writeOk createOk).1).role = "owner")
    ∧ (writeOk = true →
        g.base_group_system = false → g.base_group_erp_manager = false →
        g.group_farm_owner = true →
        ((get_user_permissions g store writeOk createOk).1).role = "owner")
    ∧ (writeOk = true →
        g.base_group_system = false → g.base_group_erp_manager = false →
        g.group_farm_owner = false → g.group_farm_manager = true →
        ((get_user_permissions g store writeOk createOk).1).role = "manager")
    ∧ (writeOk = true →
        g.base_group_system = false → g.base_group_erp_manager = false →
        g.group_farm_owner = false → g.group_farm_manager = false →
        g.group_farm_accountant = true →
        ((get_user_permissions g store writeOk createOk).1).role = "accountant")
    ∧ (∀ (r : AccessRecord) (role : String),
        resolveGroupRole g = some role → r.role ≠ role →
        (get_user_permissions g (some r) false createOk).1 = permsOfRecord r)
    ∧ (g.base_group_system = false → g.base_group_erp_manager = false →
        g.group_farm_owner = false → g.group_farm_manager = false →
        g.group_farm_accountant = false →
        get_user_permissions g store writeOk createOk = (no_access_permissions, [])) := by
  intro g store writeOk createOk
  refine ⟨?_, ?_, ?_, ?_, ?_, ?_⟩
  · rintro rfl (h | h) <;>
      exact get_user_permissions_role_eq g store createOk "owner"
        (by simp [resolveGroupRole, h])
  · rintro rfl h1 h2 h3
    exact get_user_permissions_role_eq g store createOk "owner"
      (by simp [resolveGroupRole, h1, h2, h3])
  · rintro rfl h1 h2 h3 h4
    exact get_user_permissions_role_eq g store createOk "manager"
      (by simp [resolveGroupRole, h1, h2, h3, h4])
  · rintro rfl h1 h2 h3 h4 h5
    exact get_user_permissions_role_eq g store createOk "accountant"
      (by simp [resolveGroupRole, h1, h2, h3, h4, h5])
  · intro r role hrole hne
    unfold get_user_permissions
    rw [hrole]
    simp [hne]
  · intro h1 h2 h3 h4 h5
    unfold get_user_permissions
    have : resolveGroupRole g = none := by
      simp [resolveGroupRole, h1, h2, h3, h4, h5]
    rw [this]

/-- Witness for C6: a member of the system group gets the owner role when
the self-heal write succeeds, a stale manager record is returned as is when
the self-heal write on it fails, and a user in no relevant group gets the
all-false `no_access` payload with an empty effect list. -/
theorem get_user_permissions_priority_witness :
    (({ base_group_system := true } : UserGroups).base_group_system = true)
    ∧ ((get_user_permissions { base_group_system := true } none true true).1).role = "owner"
    ∧ resolveGroupRole { base_group_system := true } = some "owner"
    ∧ (get_user_permissions { base_group_system := true }
          (some { role := "manager", flags := defaultAccessFlags }) false true).1
        = permsOfRecord { role := "manager", flags := defaultAccessFlags }
    ∧ get_user_permissions {} none true true = (no_access_permissions, []) :=
  ⟨rfl,
   (get_user_permissions_priority_and_short_circuit
      { base_group_system := true } none true true).1 rfl (Or.inl rfl),
   by decide,
   (get_user_permissions_priority_and_short_circuit
      { base_group_system := true }
      (some { role := "manager", flags := defaultAccessFlags }) false true).2.2.2.2.1
      { role := "manager", flags := defaultAccessFlags } "owner" (by decide) (by decide),
   (get_user_permissions_priority_and_short_circuit
      {} none true true).2.2.2.2.2 rfl rfl rfl rfl rfl⟩

/-- C1 (code defect evidence): `update_project_status` validates only that
the requested state is a known state name and never consults the transition
graph that `get_project_state_transitions` itself declares.  A project in
state `draft` asked to move to `harvest` gets a success result (and the
state is written), although `harvest` is not among the declared successors
of `draft`; `harvest` to `done` also succeeds, as both the claim and the
graph expect. -/
theorem update_project_status_ignores_transition_graph :
    update_project_status true (some { state := "draft" }) "harvest" 0
      = UpdateStatusResult.ok "draft" "harvest" 80 none
          "Project status updated from draft to harvest"
    ∧ get_project_state_transitions.lookup "draft" = some ["planning", "cancel"]
    ∧ "harvest" ∉ (get_project_state_transitions.lookup "draft").getD []
    ∧ update_project_status true (some { state := "harvest" }) "done" 7
      = UpdateStatusResult.ok "harvest" "done" 100 (some 7)
          "Project status updated from harvest to done" := by
  refine ⟨by decide, by decide, by decide, by decide⟩

/-- C8: `_build_domain` is a pure function of its filters argument: the empty
filter dict yields the empty domain (which matches everything), equal inputs
yield identical predicates, and every absent or falsy filter key contributes
no clause (empty or blank strings, an empty id list, a zero id, a zero
budget bound all behave exactly like a missing key). -/
theorem build_domain_pure_empty_and_falsy :
    _build_domain {} = []
  ∧ (∀ f : Filters, _build_domain f = _build_domain f)
  ∧ (∀ f : Filters,
      _build_domain { f with date_from := some "" } = _build_domain { f with date_from := none })
  ∧ (∀ f : Filters,
      _build_domain { f with date_to := some "" } = _build_domain { f with date_to := none })
  ∧ (∀ f : Filters,
      _build_domain { f with farm_ids := some [] } = _build_domain { f with farm_ids := none })
  ∧ (∀ f : Filters,
      _build_domain { f with farm_id := some (.pstr "") } = _build_domain { f with farm_id := none })
  ∧ (∀ f : Filters,
      _build_domain { f with farm_id := some (.pint 0) } = _build_domain { f with farm_id := none })
  ∧ (∀ f : Filters,
      _build_domain { f with crop_id := some (.pint 0) } = _build_domain { f with crop_id := none })
  ∧ (∀ f : Filters,
      _build_domain { f with stage := some "" } = _build_domain { f with stage := none })
  ∧ (∀ f : Filters,
      _build_domain { f with search := some "" } = _build_domain { f with search := none })
  ∧ (∀ f : Filters,
      _build_domain { f with budget_min := some 0 } = _build_domain { f with budget_min := none })
  ∧ (∀ f : Filters,
      _build_domain { f with budget_max := some 0 } = _build_domain { f with budget_max := none }) := by
  refine ⟨rfl, fun _ => rfl, ?_, ?_, ?_, ?_, ?_, ?_, ?_, ?_, ?_, ?_⟩ <;>
    · intro f
      cases f
      simp [_build_domain, idFilterClause, PyVal.truthy]

/-- C9: in `_build_domain` a nonempty `farm_ids` list takes precedence over a
scalar `farm_id` (the scalar contributes nothing and the `in` clause is
emitted), and a `farm_id` or `crop_id` value that does not parse as an
integer contributes no clause and raises no error — the rest of the
predicate is built exactly as if the key were absent. -/
theorem build_domain_farm_precedence_and_bad_ids :
    ∀ (f : Filters) (l : List ℤ) (v : Option PyVal) (s : String) (w : PyVal),
      (l ≠ [] →
        _build_domain { f with farm_ids := some l, farm_id := v }
          = _build_domain { f with farm_ids := some l, farm_id := none }
        ∧ DomElem.cond "farm_id" "in" (.il l)
            ∈ _build_domain { f with farm_ids := some l, farm_id := v })
    ∧ (pyInt (.pstr s) = none →
        _build_domain { f with farm_id := some (.pstr s) }
          = _build_domain { f with farm_id := none })
    ∧ (pyInt w = none →
        _build_domain { f with crop_id := some w }
          = _build_domain { f with crop_id := none }) := by
  intro f l v s w
  refine ⟨fun hl => ⟨?_, ?_⟩, fun hs => ?_, fun hw => ?_⟩
  · cases f; simp [_build_domain, hl]
  · cases f; simp [_build_domain, hl]
  · cases f with
    | mk d1 d2 fids fid cid st se b1 b2 =>
      cases fids <;> simp [_build_domain, idFilterClause, hs]
  · cases f
    simp only [_build_domain, idFilterClause, hw]
    cases hw' : w.truthy <;> simp [hw', hw]

/-- Helper: for a nonempty project list the guarded divisions inside
`_calculate_real_kpis` all succeed and the try block produces exactly the
closed-form record. -/
theorem real_kpis_core_eq (ps : List Project) (role : String) (h : ps ≠ []) :
    _calculate_real_kpis_core ps role = some (realKpisFor ps role) := by
  have h3 : 0 < ps.length := List.length_pos.mpr h
  have h3q : ((ps.length : ℚ)) ≠ 0 := Nat.cast_ne_zero.mpr h3.ne'
  have hne : ps.isEmpty = false := by simp [List.isEmpty_iff, h]
  unfold _calculate_real_kpis_core realKpisFor
  by_cases h1 : sumTruthy (ps.map (·.budget)) > 0
  · by_cases h2 : sumTruthy (ps.map (·.revenue)) > 0
    · simp [hne, h1, h2, h3, divChecked, h1.ne', h2.ne', h3q]
    · simp [hne, h1, h2, h3, divChecked, h1.ne', h3q]
  · by_cases h2 : sumTruthy (ps.map (·.revenue)) > 0
    · simp [hne, h1, h2, h3, divChecked, h2.ne', h3q]
    · simp [hne, h1, h2, h3, divChecked, h3q]

/-- Helper: the payload of `_calculate_real_kpis` on a nonempty project
list. -/
theorem real_kpis_eq (ps : List Project) (role : String) (h : ps ≠ []) :
    _calculate_real_kpis ps role = realKpisFor ps role := by
  simp [_calculate_real_kpis, real_kpis_core_eq ps role h]

/-- Helper: the guarded divisions in `calculate_financial_kpis` always
succeed, yielding the closed-form record. -/
theorem financial_kpis_core_eq (ps : List Project) :
    calculate_financial_kpis_core ps = some (financialKpisFor ps) := by
  unfold calculate_financial_kpis_core financialKpisFor
  by_cases h1 : (ps.map (·.budget)).sum = 0 <;>
    by_cases h2 : (ps.map (·.revenue)).sum = 0 <;>
      by_cases h3 : (ps.map (·.actual_cost)).sum = 0 <;>
        simp [h1, h2, h3, divChecked]

/-- C3: the `budget_variance` and `profit_margin` ratios never raise a
division error — in `_calculate_real_kpis` the try block always completes
(`isSome`), and in `calculate_financial_kpis` the guarded expression always
produces a value — and each ratio is exactly 0 when its denominator (total
budget, total revenue respectively) is 0, in both the per-record calculator
and the grouped-sum helper. -/
theorem kpi_ratios_never_divide_by_zero :
    ∀ (ps : List Project) (role : String),
      (_calculate_real_kpis_core ps role).isSome = true
    ∧ (sumTruthy (ps.map (·.budget)) = 0 →
        (_calculate_real_kpis ps "owner").budget_variance = some 0)
    ∧ (sumTruthy (ps.map (·.revenue)) = 0 →
        (_calculate_real_kpis ps "owner").profit_margin = some 0)
    ∧ calculate_financial_kpis_core ps = some (financialKpisFor ps)
    ∧ ((ps.map (·.budget)).sum = 0 → (financialKpisFor ps).budget_variance = 0)
    ∧ ((ps.map (·.revenue)).sum = 0 → (financialKpisFor ps).profit_margin = 0) := by
  intro ps role
  refine ⟨?_, ?_, ?_, financial_kpis_core_eq ps, ?_, ?_⟩
  · by_cases h : ps = []
    · subst h; simp [_calculate_real_kpis_core]
    · simp [real_kpis_core_eq ps role h]
  · intro hb
    by_cases h : ps = []
    · subst h; simp [_calculate_real_kpis, _calculate_real_kpis_core, _get_zero_kpis]
    · rw [real_kpis_eq ps "owner" h]
      simp [realKpisFor, hb, round2]
  · intro hr
    by_cases h : ps = []
    · subst h; simp [_calculate_real_kpis, _calculate_real_kpis_core, _get_zero_kpis]
    · rw [real_kpis_eq ps "owner" h]
      simp [realKpisFor, hr, round2]
  · intro hb; simp [financialKpisFor, hb]
  · intro hr; simp [financialKpisFor, hr]

/-- Witness for C3: one project with zero budget and zero revenue gives a 0
variance and a 0 margin in both calculators. -/
theorem kpi_zero_denominator_witness :
    sumTruthy ([({ actual_cost := 5 } : Project)].map (·.budget)) = 0
  ∧ sumTruthy ([({ actual_cost := 5 } : Project)].map (·.revenue)) = 0
  ∧ (_calculate_real_kpis [({ actual_cost := 5 } : Project)] "owner").budget_variance = some 0
  ∧ (_calculate_real_kpis [({ actual_cost := 5 } : Project)] "owner").profit_margin = some 0
  ∧ ([({ actual_cost := 5 } : Project)].map (·.budget)).sum = 0
  ∧ (financialKpisFor [({ actual_cost := 5 } : Project)]).budget_variance = 0
  ∧ (financialKpisFor [({ actual_cost := 5 } : Project)]).profit_margin = 0 :=
  ⟨by simp [sumTruthy], by simp [sumTruthy],
   (kpi_ratios_never_divide_by_zero [{ actual_cost := 5 }] "owner").2.1 (by simp [sumTruthy]),
   (kpi_ratios_never_divide_by_zero [{ actual_cost := 5 }] "owner").2.2.1 (by simp [sumTruthy]),
   by simp,
   (kpi_ratios_never_divide_by_zero [{ actual_cost := 5 }] "owner").2.2.2.2.1 (by simp),
   (kpi_ratios_never_divide_by_zero [{ actual_cost := 5 }] "owner").2.2.2.2.2 (by simp)⟩

/-- Helper: a difference of whole-cent amounts is a whole-cent amount. -/
theorem isCent_sub {a b : ℚ} (ha : isCent a) (hb : isCent b) : isCent (a - b) := by
  obtain ⟨m, rfl⟩ := ha
  obtain ⟨n, rfl⟩ := hb
  exact ⟨m - n, by push_cast; ring⟩

/-- Helper: a sum of whole-cent amounts is a whole-cent amount. -/
theorem isCent_sum (l : List ℚ) (h : ∀ x ∈ l, isCent x) : isCent l.sum := by
  induction l with
  | nil => exact ⟨0, by simp⟩
  | cons a t ih =>
    obtain ⟨m, hm⟩ := h a (List.mem_cons_self a t)
    obtain ⟨n, hn⟩ := ih (fun x hx => h x (List.mem_cons_of_mem a hx))
    exact ⟨m + n, by simp [hm, hn]; ring⟩

/-- Helper: a truthiness-filtered sum of whole-cent amounts is whole-cent. -/
theorem sumTruthy_isCent (l : List ℚ) (h : ∀ x ∈ l, isCent x) : isCent (sumTruthy l) :=
  isCent_sum _ (fun x hx => h x (List.mem_of_mem_filter hx))

/-- Helper: `round(x, 2)` is the identity on whole-cent amounts. -/
theorem round2_isCent {q : ℚ} (h : isCent q) : round2 q = q := by
  obtain ⟨n, rfl⟩ := h
  have h100 : ((n : ℚ) / 100) * 100 = (n : ℚ) := by field_simp
  rw [round2, h100, round_intCast]

/-- Counterexample for C4: with the farm model present and zero cultivation
projects, `get_dashboard_data({}, "overview")` returns a payload whose
`data_source` is `"live"` (carrying the all-zero KPI set), not `"demo"` as
the claim asserts. -/
theorem overview_zero_projects_live_counterexample :
    get_dashboard_data {} { projectModelExists := true, search := fun _ => [] } {} "overview"
      = DashboardResult.overview
          { kpis := _get_zero_kpis, user_role := "user", data_source := "live" }
    ∧ ("live" : String) ≠ "demo" := by
  refine ⟨?_, by decide⟩
  simp [get_dashboard_data, _check_dashboard_access, _get_user_role, _get_overview_data,
    _calculate_real_kpis, _calculate_real_kpis_core]

/-- C4 (amended): in the live KPI payload `total_profit` is the rounded
difference of raw revenue and raw cost, so whenever every revenue and
actual-cost figure is a whole number of cents the payload satisfies
`total_profit = total_revenue - total_actual_cost` exactly (with arbitrary
sub-cent amounts the three independently rounded figures can disagree); the
demo payload carries `data_source = "demo"` and its canned numbers satisfy
the identity; and the demo payload is what `get_dashboard_data({},
"overview")` returns when the farm model is absent — zero projects with the
model present yield a live payload instead. -/
theorem kpi_profit_identity_amended :
    (∀ (ps : List Project) (role : String),
      (∀ p ∈ ps, isCent p.revenue ∧ isCent p.actual_cost) →
      (_calculate_real_kpis ps role).total_profit
        = (_calculate_real_kpis ps role).total_revenue
          - (_calculate_real_kpis ps role).total_actual_cost)
  ∧ _get_demo_overview_data.data_source = "demo"
  ∧ demoOverviewKpis.total_profit
      = demoOverviewKpis.total_revenue - demoOverviewKpis.total_actual_cost
  ∧ get_dashboard_data {} { projectModelExists := false, search := fun _ => [] } {} "overview"
      = DashboardResult.overview _get_demo_overview_data := by
  refine ⟨?_, rfl, by norm_num [demoOverviewKpis], ?_⟩
  · intro ps role h
    by_cases hps : ps = []
    · subst hps
      simp [_calculate_real_kpis, _calculate_real_kpis_core, _get_zero_kpis]
    · rw [real_kpis_eq ps role hps]
      have hR : isCent (sumTruthy (ps.map (·.revenue))) := by
        refine sumTruthy_isCent _ ?_
        intro x hx
        obtain ⟨p, hp, rfl⟩ := List.mem_map.mp hx
        exact (h p hp).1
      have hC : isCent (sumTruthy (ps.map (·.actual_cost))) := by
        refine sumTruthy_isCent _ ?_
        intro x hx
        obtain ⟨p, hp, rfl⟩ := List.mem_map.mp hx
        exact (h p hp).2
      simp only [realKpisFor]
      rw [round2_isCent (isCent_sub hR hC), round2_isCent hR, round2_isCent hC]
  · simp [get_dashboard_data, _check_dashboard_access, _get_user_role, _get_overview_data]

/-- Witness for C4: one project whose revenue and cost are whole cents makes
the live payload satisfy the profit identity. -/
theorem kpi_profit_identity_witness :
    (∀ p ∈ [({ revenue := 5, actual_cost := 2 } : Project)],
        isCent p.revenue ∧ isCent p.actual_cost)
  ∧ (_calculate_real_kpis [({ revenue := 5, actual_cost := 2 } : Project)] "owner").total_profit
      = (_calculate_real_kpis [({ revenue := 5, actual_cost := 2 } : Project)] "owner").total_revenue
        - (_calculate_real_kpis [({ revenue := 5, actual_cost := 2 } : Project)] "owner").total_actual_cost := by
  have hc : ∀ p ∈ [({ revenue := 5, actual_cost := 2 } : Project)],
      isCent p.revenue ∧ isCent p.actual_cost := by
    intro p hp
    simp only [List.mem_singleton] at hp
    subst hp
    exact ⟨⟨500, by norm_num⟩, ⟨200, by norm_num⟩⟩
  exact ⟨hc, kpi_profit_identity_amended.1 [{ revenue := 5, actual_cost := 2 }] "owner" hc⟩

/-- Witness for C9: with a nonempty `farm_ids` list the scalar `farm_id` is
ignored and the `in` clause is emitted; the unparsable strings contribute no
clause while the stage clause is still built. -/
theorem build_domain_bad_id_witness :
    (([3] : List ℤ) ≠ [])
  ∧ pyInt (.pstr "abc") = none
  ∧ _build_domain { stage := some "growing", farm_ids := some [3], farm_id := some (.pstr "9") }
      = _build_domain { stage := some "growing", farm_ids := some [3], farm_id := none }
  ∧ DomElem.cond "farm_id" "in" (.il [3])
      ∈ _build_domain { stage := some "growing", farm_ids := some [3], farm_id := some (.pstr "9") }
  ∧ _build_domain { stage := some "growing", farm_id := some (.pstr "abc") }
      = _build_domain { stage := some "growing", farm_id := none }
  ∧ _build_domain { stage := some "growing", crop_id := some (.pstr "abc") }
      = _build_domain { stage := some "growing", crop_id := none } :=
  ⟨by decide, by decide,
   ((build_domain_farm_precedence_and_bad_ids { stage := some "growing" } [3]
      (some (.pstr "9")) "abc" (.pstr "abc")).1 (by decide)).1,
   ((build_domain_farm_precedence_and_bad_ids { stage := some "growing" } [3]
      (some (.pstr "9")) "abc" (.pstr "abc")).1 (by decide)).2,
   (build_domain_farm_precedence_and_bad_ids { stage := some "growing" } [3]
      (some (.pstr "9")) "abc" (.pstr "abc")).2.1 (by decide),
   (build_domain_farm_precedence_and_bad_ids { stage := some "growing" } [3]
      (some (.pstr "9")) "abc" (.pstr "abc")).2.2 (by decide)⟩

/-- Helper: the aging fold distributes every dated document into the window
selected by its invoice-date age. -/
theorem ageFold_buckets (today : ℤ) : ∀ (l : List AccountMove) (b : AgedBuckets),
    l.foldl (agedStep today) b
      = { b0_30 := b.b0_30 + residualSum (l.filter (ageWindow0 today))
          b31_60 := b.b31_60 + residualSum (l.filter (ageWindow1 today))
          b61_90 := b.b61_90 + residualSum (l.filter (ageWindow2 today))
          b90plus := b.b90plus + residualSum (l.filter (ageWindow3 today)) } := by
  intro l
  induction l with
  | nil => intro b; simp [residualSum]
  | cons m t ih =>
    intro b
    rw [List.foldl_cons, ih]
    cases hm : m.invoice_date with
    | none =>
      simp [agedStep, ageWindow0, ageWindow1, ageWindow2, ageWindow3, hm]
    | some d =>
      by_cases h0 : today - d ≤ 30
      · have f1 : ¬ 30 < today - d := not_lt.mpr h0
        have f2 : ¬ 60 < today - d := by omega
        have f3 : ¬ 90 < today - d := by omega
        simp [agedStep, ageWindow0, ageWindow1, ageWindow2, ageWindow3, hm, h0, f1, f2, f3,
          residualSum]
        ring
      · by_cases h1 : today - d ≤ 60
        · have f2 : ¬ 60 < today - d := not_lt.mpr h1
          have f3 : ¬ 90 < today - d := by omega
          simp [agedStep, ageWindow0, ageWindow1, ageWindow2, ageWindow3, hm, h0, h1,
            not_le.mp h0, f2, f3, residualSum]
          ring
        · by_cases h2 : today - d ≤ 90
          · have f3 : ¬ 90 < today - d := not_lt.mpr h2
            simp [agedStep, ageWindow0, ageWindow1, ageWindow2, ageWindow3, hm, h0, h1, h2,
              not_le.mp h0, not_le.mp h1, f3, residualSum]
            ring
          · simp [agedStep, ageWindow0, ageWindow1, ageWindow2, ageWindow3, hm, h0, h1, h2,
              not_le.mp h0, not_le.mp h1, not_le.mp h2, residualSum]
            ring

/-- Helper: the four window sums add up to the residual total of the dated
documents (each dated document lies in exactly one window). -/
theorem buckets_total (today : ℤ) : ∀ (l : List AccountMove),
    residualSum (l.filter (ageWindow0 today)) + residualSum (l.filter (ageWindow1 today))
      + residualSum (l.filter (ageWindow2 today)) + residualSum (l.filter (ageWindow3 today))
      = residualSum (l.filter hasInvoiceDate) := by
  intro l
  induction l with
  | nil => simp [residualSum]
  | cons m t ih =>
    cases hm : m.invoice_date with
    | none =>
      simpa [ageWindow0, ageWindow1, ageWindow2, ageWindow3, hasInvoiceDate, hm] using ih
    | some d =>
      by_cases h0 : today - d ≤ 30
      · have f1 : ¬ 30 < today - d := not_lt.mpr h0
        have f2 : ¬ 60 < today - d := by omega
        have f3 : ¬ 90 < today - d := by omega
        simp [ageWindow0, ageWindow1, ageWindow2, ageWindow3, hasInvoiceDate, hm, h0, f1, f2, f3,
          residualSum] at ih ⊢
        linarith [ih]
      · by_cases h1 : today - d ≤ 60
        · have f2 : ¬ 60 < today - d := not_lt.mpr h1
          have f3 : ¬ 90 < today - d := by omega
          simp [ageWindow0, ageWindow1, ageWindow2, ageWindow3, hasInvoiceDate, hm, h0, h1,
            not_le.mp h0, f2, f3, residualSum] at ih ⊢
          linarith [ih]
        · by_cases h2 : today - d ≤ 90
          · have f3 : ¬ 90 < today - d := not_lt.mpr h2
            simp [ageWindow0, ageWindow1, ageWindow2, ageWindow3, hasInvoiceDate, hm, h0, h1, h2,
              not_le.mp h0, not_le.mp h1, f3, residualSum] at ih ⊢
            linarith [ih]
          · simp [ageWindow0, ageWindow1, ageWindow2, ageWindow3, hasInvoiceDate, hm, h0, h1, h2,
              not_le.mp h0, not_le.mp h1, not_le.mp h2, residualSum] at ih ⊢
            linarith [ih]

/-- C10 (amended): the aging pass puts every open posted document with a
positive residual amount that carries an invoice date into exactly one of the
four windows, keyed by the number of days from its invoice date (not its due
date) to today; documents without an invoice date are skipped entirely; and
the reported totals equal the sum of the four windows, which is the residual
total of the dated documents. -/
theorem aged_analysis_partitions_by_invoice_date :
    ∀ (moves : List AccountMove) (today : ℤ),
      (_get_aged_receivables_payables moves today).receivables.b0_30
        = residualSum ((moves.filter receivableFilter).filter (ageWindow0 today))
    ∧ (_get_aged_receivables_payables moves today).receivables.b31_60
        = residualSum ((moves.filter receivableFilter).filter (ageWindow1 today))
    ∧ (_get_aged_receivables_payables moves today).receivables.b61_90
        = residualSum ((moves.filter receivableFilter).filter (ageWindow2 today))
    ∧ (_get_aged_receivables_payables moves today).receivables.b90plus
        = residualSum ((moves.filter receivableFilter).filter (ageWindow3 today))
    ∧ (_get_aged_receivables_payables moves today).total_receivables
        = residualSum ((moves.filter receivableFilter).filter hasInvoiceDate)
    ∧ (_get_aged_receivables_payables moves today).payables.b0_30
        = residualSum ((moves.filter payableFilter).filter (ageWindow0 today))
    ∧ (_get_aged_receivables_payables moves today).payables.b31_60
        = residualSum ((moves.filter payableFilter).filter (ageWindow1 today))
    ∧ (_get_aged_receivables_payables moves today).payables.b61_90
        = residualSum ((moves.filter payableFilter).filter (ageWindow2 today))
    ∧ (_get_aged_receivables_payables moves today).payables.b90plus
        = residualSum ((moves.filter payableFilter).filter (ageWindow3 today))
    ∧ (_get_aged_receivables_payables moves today).total_payables
        = residualSum ((moves.filter payableFilter).filter hasInvoiceDate) := by
  intro moves today
  have hr := ageFold_buckets today (moves.filter receivableFilter) {}
  have hp := ageFold_buckets today (moves.filter payableFilter) {}
  have tr := buckets_total today (moves.filter receivableFilter)
  have tp := buckets_total today (moves.filter payableFilter)
  unfold _get_aged_receivables_payables ageMoves
  rw [hr, hp]
  refine ⟨by simp, by simp, by simp, by simp, ?_, by simp, by simp, by simp, by simp, ?_⟩
  · simpa using tr
  · simpa using tp

/-- Counterexample for C10: an open posted invoice issued 40 days ago but due
only 10 days ago is put in the 31-60 window by the source (which ages by
`invoice_date`), while aging by due-date age as the claim states would put it
in the 0-30 window. -/
theorem aged_analysis_due_date_counterexample :
    (_get_aged_receivables_payables
        [{ move_type := "out_invoice", state := "posted", amount_residual := 100,
           invoice_date := some (-40), invoice_date_due := some (-10) }] 0).receivables.b31_60
      = 100
  ∧ (_get_aged_receivables_payables
        [{ move_type := "out_invoice", state := "posted", amount_residual := 100,
           invoice_date := some (-40), invoice_date_due := some (-10) }] 0).receivables.b0_30
      = 0
  ∧ ageReceivablesByDueDate
        [{ move_type := "out_invoice", state := "posted", amount_residual := 100,
           invoice_date := some (-40), invoice_date_due := some (-10) }] 0
      = { b0_30 := 100, b31_60 := 0, b61_90 := 0, b90plus := 0 }
  ∧ (_get_aged_receivables_payables
        [{ move_type := "out_invoice", state := "posted", amount_residual := 100,
           invoice_date := some (-40), invoice_date_due := some (-10) }] 0).receivables
      ≠ ageReceivablesByDueDate
        [{ move_type := "out_invoice", state := "posted", amount_residual := 100,
           invoice_date := some (-40), invoice_date_due := some (-10) }] 0 := by
  have h1 : (_get_aged_receivables_payables
      [{ move_type := "out_invoice", state := "posted", amount_residual := 100,
         invoice_date := some (-40), invoice_date_due := some (-10) }] 0).receivables
      = { b0_30 := 0, b31_60 := 100, b61_90 := 0, b90plus := 0 } := by
    norm_num [_get_aged_receivables_payables, ageMoves, agedStep, receivableFilter, payableFilter]
  have h2 : ageReceivablesByDueDate
      [{ move_type := "out_invoice", state := "posted", amount_residual := 100,
         invoice_date := some (-40), invoice_date_due := some (-10) }] 0
      = { b0_30 := 100, b31_60 := 0, b61_90 := 0, b90plus := 0 } := by
    norm_num [ageReceivablesByDueDate, agedStepByDueDate, receivableFilter]
  refine ⟨by rw [h1], by rw [h1], h2, ?_⟩
  rw [h1, h2]
  intro h
  have := congrArg AgedBuckets.b0_30 h
  norm_num at this
